import Mathlib

/-
Verification of the natural-language specification of
RepoDynamics/JSONSchema-AutoDoc against its source
(src/jsonschema_mdit/generator/default.py, class DefaultGenerator).

The Python module is shallowly embedded below: JSON values become `JVal`,
the generator's construction-time configuration becomes `Config`, the
call-scoped fields the source stashes on the instance (`self._schema`,
`self._schema_jsonpath`, `self._schema_tag_prefix`,
`self._instance_jsonpath`) become `CallCtx`, and fallible Python code
returns `Except PyErr`.  Python exceptions (AttributeError on a missing
attribute, NameError on an undefined name, TypeError on calling a
non-callable or taking `len` of an unsized object, ValueError, KeyError)
are modelled by the `PyErr` type.

The keyword-name constants of `jsonschema_mdit.meta.Key` are not part of
the provided source tree; they are modelled from the spec, which names
the JSON Schema draft-2020-12 keywords literally (`type`, `maxLength`,
`dependentRequired`, `$ref`, `$id`, ...).  The string-case helpers of the
external `pylinks` collaborator (camel_to_title, camel_to_snake, to_slug)
are modelled by their standard documented behaviour.
-/

namespace JsonschemaMdit

/-- Python/JSON values as handled by the generator: the schema node is a
mapping from keyword names to arbitrary JSON values. -/
inductive JVal where
  | null : JVal
  | bool (b : Bool) : JVal
  | num (n : Int) : JVal
  | str (s : String) : JVal
  | arr (xs : List JVal) : JVal
  | obj (kvs : List (String × JVal)) : JVal

/-- A schema node: a keyword-to-value mapping (Python dict, insertion
ordered, unique keys). -/
abbrev Schema := List (String × JVal)

/-- Python runtime errors that the embedded code can raise. -/
inductive PyErr where
  | attributeError (name : String) : PyErr
  | nameError (name : String) : PyErr
  | typeError (msg : String) : PyErr
  | valueError (msg : String) : PyErr
  | keyError : PyErr
deriving DecidableEq

/-- A single ASCII apostrophe, used in sentence templates of the source. -/
def sq : String := (Char.ofNat 39).toString

/-- Python truthiness of a JSON value (`bool(value)`). -/
def truthy : JVal → Bool
  | .null => false
  | .bool b => b
  | .num n => !(n == 0)
  | .str s => !(s == "")
  | .arr xs => !xs.isEmpty
  | .obj kvs => !kvs.isEmpty

/-- Truthiness of a `dict.get` result: Python `None` (absent key) is falsy. -/
def truthyOpt : Option JVal → Bool
  | none => false
  | some v => truthy v

/-- Python `str(value).lower()` for a boolean. -/
def pyBoolLower (b : Bool) : String := if b then "true" else "false"

/-- Python `len(value)`: defined for strings, lists and dicts, a TypeError
otherwise. -/
def pyLen : JVal → Except PyErr Nat
  | .str s => .ok s.length
  | .arr xs => .ok xs.length
  | .obj kvs => .ok kvs.length
  | _ => .error (.typeError "object has no len")

/-- Python `sep.join(values)`: every element must be a string. -/
def pyJoinStrs (sep : String) (xs : List JVal) : Except PyErr String := do
  let strs ← xs.mapM fun v =>
    match v with
    | .str s => Except.ok s
    | _ => Except.error (.typeError "sequence item is not a string")
  return String.intercalate sep strs

/-- Python iteration over a value: lists yield elements, strings yield
characters, dicts yield their keys; anything else is a TypeError. -/
def pyIter : JVal → Except PyErr (List JVal)
  | .arr xs => .ok xs
  | .str s => .ok (s.data.map fun c => .str c.toString)
  | .obj kvs => .ok (kvs.map fun kv => .str kv.1)
  | _ => .error (.typeError "object is not iterable")

/-- Python `key in container` for the `properties` value: membership of a
string among a dict's keys or a list's elements. -/
def hasKeyJ (container : JVal) (k : String) : Bool :=
  match container with
  | .obj kvs => kvs.any fun kv => kv.1 == k
  | .arr xs => xs.any fun v => match v with | .str s => s == k | _ => false
  | _ => false

mutual

/-- Python `repr` of a value (as produced by f-string interpolation of
lists/dicts), needed only by tooltip templates of the source. -/
def pyRepr : JVal → String
  | .null => "None"
  | .bool b => if b then "True" else "False"
  | .num n => toString n
  | .str s => sq ++ s ++ sq
  | .arr xs => "[" ++ pyReprItems xs ++ "]"
  | .obj kvs => "\x7b" ++ pyReprPairs kvs ++ "\x7d"

/-- Comma-separated reprs of list elements. -/
def pyReprItems : List JVal → String
  | [] => ""
  | [x] => pyRepr x
  | x :: xs => pyRepr x ++ ", " ++ pyReprItems xs

/-- Comma-separated reprs of dict items. -/
def pyReprPairs : List (String × JVal) → String
  | [] => ""
  | [(k, v)] => sq ++ k ++ sq ++ ": " ++ pyRepr v
  | (k, v) :: xs => sq ++ k ++ sq ++ ": " ++ pyRepr v ++ ", " ++ pyReprPairs xs

end

/-- Python `str(value)` as used in f-string interpolation: identical to
`repr` except on strings. -/
def pyStr : JVal → String
  | .str s => s
  | v => pyRepr v

/-- Lexicographic (code-point) comparison of character lists, the order
Python uses to compare strings. -/
def charListLe : List Char → List Char → Bool
  | [], _ => true
  | _ :: _, [] => false
  | a :: as, b :: bs =>
      if a.val < b.val then true
      else if b.val < a.val then false
      else charListLe as bs

/-- Python string `<=` (code-point lexicographic). -/
def pyStrLe (a b : String) : Bool := charListLe a.data b.data

/-- Insert into a sorted list of strings (stable). -/
def insertSorted (x : String) : List String → List String
  | [] => [x]
  | y :: ys => if pyStrLe x y then x :: y :: ys else y :: insertSorted x ys

/-- Python `sorted` on a list of strings. -/
def sortStrings (l : List String) : List String := l.foldr insertSorted []

/-- Insert a key-value pair into a key-sorted pair list (stable). -/
def insertPairSorted (x : String × JVal) : List (String × JVal) → List (String × JVal)
  | [] => [x]
  | y :: ys => if pyStrLe x.1 y.1 then x :: y :: ys else y :: insertPairSorted x ys

/-- Python `sorted(d.items())`: items ordered by key (keys are unique, so
tuple comparison reduces to key comparison). -/
def sortPairs (l : List (String × JVal)) : List (String × JVal) := l.foldr insertPairSorted []

/-- Python `sorted(value)` as applied to the `required` keyword: a list of
strings is sorted; a string yields its sorted characters; a dict yields
its sorted keys; mixed or unordered operands raise TypeError. -/
def pySortedStrs : JVal → Except PyErr (List String)
  | .arr xs => do
      let strs ← xs.mapM fun v =>
        match v with
        | .str s => Except.ok s
        | _ => Except.error (.typeError "unsupported comparison between instances")
      return sortStrings strs
  | .str s => .ok (sortStrings (s.data.map Char.toString))
  | .obj kvs => .ok (sortStrings (kvs.map Prod.fst))
  | _ => .error (.typeError "object is not iterable")

/-- Model of pylinks `camel_to_title` (the default `key_title_gen`):
inserts a space before each uppercase letter and capitalises the first
character, e.g. `maxLength` to `Max Length`. -/
def camel_to_title (s : String) : String :=
  let spaced := s.data.foldl (fun acc c => if c.isUpper then acc ++ [' ', c] else acc ++ [c]) []
  match spaced with
  | [] => ""
  | c :: rest => String.mk (c.toUpper :: rest)

/-- Model of pylinks `camel_to_snake`: inserts an underscore before each
uppercase letter and lowercases, e.g. `maxLength` to `max_length`.
Characters with no case, such as the `$` of `$ref`, pass through
unchanged. -/
def camel_to_snake (s : String) : String :=
  String.mk (s.data.foldl (fun acc c => if c.isUpper then acc ++ ['_', c.toLower] else acc ++ [c]) [])

/-- Model of pylinks `to_slug`: lowercase, with every non-alphanumeric
character replaced by a hyphen. -/
def to_slug (s : String) : String :=
  String.mk (s.data.map fun c => if c.isAlphanum then c.toLower else '-')

/-- A per-badge style fragment: the permissive/restrictive styles and the
per-keyword badge defaults of `__init__` are colour/label dicts merged
onto the badge kwargs (`kwargs | config | badge_default.get(key)`). -/
structure StyleCfg where
  label : Option String := none
  color : Option String := none
deriving DecidableEq

/-- The badge-descriptor kwargs dict produced by `_make_badge_kwargs`. -/
structure Badge where
  label : String
  message : String
  alt : String
  link : Option String := none
  title : Option JVal := none
  color : Option String := none

/-- Right-biased dict merge of a style fragment onto badge kwargs. -/
def applyStyle (b : Badge) (c : StyleCfg) : Badge :=
  { b with
    label := c.label.getD b.label
    color := match c.color with | some x => some x | none => b.color }

/-- The configured value-serialisation function.  The source default is
`lambda value: _ps.write.to_yaml_string` (note: the lambda returns the
function object itself instead of applying it), so calling `.strip()` on
its result raises AttributeError. -/
inductive CodeGen where
  | funcObject : CodeGen
  | fn (f : JVal → String) : CodeGen

/-- The external registry collaborator: resolves a schema id to the
referenced schema's contents (spec section 6: lookup(id: string)). -/
abbrev Registry := List (String × Schema)

/-- Default `ref_tag_gen`: `lambda schema: schema["$id"]` (KeyError when
absent). -/
def defaultRefTagGen (s : Schema) : Except PyErr JVal :=
  match s.lookup "$id" with
  | some v => .ok v
  | none => .error .keyError

/-- Default `ref_name_gen`: `lambda schema: schema.get("title", schema["$id"])`;
the default argument is evaluated eagerly, so a missing `$id` raises even
when `title` is present. -/
def defaultRefNameGen (s : Schema) : Except PyErr JVal :=
  match s.lookup "$id" with
  | none => .error .keyError
  | some idv => .ok ((s.lookup "title").getD idv)

/-- The per-keyword badge-config defaults installed by `__init__`
(`badge_default` merged into `self._badge_default`). -/
def defaultBadgeTable : List (String × StyleCfg) :=
  [("type", { label := some "Type" }),
   ("$id", { label := some "ID" }),
   ("$ref", { label := some "Ref" }),
   ("$defs", { label := some "Defs" }),
   ("allOf", { label := some "All Of" }),
   ("anyOf", { label := some "Any Of" }),
   ("required", { color := some "#AF1F10" }),
   ("deprecated", { color := some "#AF1F10" }),
   ("readOnly", { color := some "#D93402" }),
   ("writeOnly", { color := some "#D93402" })]

/-- The construction-time configuration of `DefaultGenerator.__init__`,
with the source's default values. -/
structure Config where
  registry : Option Registry := none
  key_title_gen : String → String := camel_to_title
  value_code_gen : CodeGen := .funcObject
  value_code_language : String := "yaml"
  class_pre : String := "jsonschema-"
  ref_tag_pre : String := "jsonschema-ref"
  ref_tag_gen : Schema → Except PyErr JVal := defaultRefTagGen
  ref_name_gen : Schema → Except PyErr JVal := defaultRefNameGen
  kw_title_pre : String := ""
  kw_title_suf : String := "_title"
  kw_desc_pre : String := ""
  kw_desc_suf : String := "_description"
  badge_permissive : StyleCfg := { color := some "#00802B" }
  badge_restrictive : StyleCfg := { color := some "#AF1F10" }
  badge_default : List (String × StyleCfg) := defaultBadgeTable

/-- The call-scoped data `generate_schema` stores on the instance
(`self._schema`, `self._schema_jsonpath`, `self._schema_tag_prefix`,
`self._instance_jsonpath`); initialised empty by `__init__`. -/
structure CallCtx where
  schema : Schema := []
  schema_jsonpath : String := ""
  schema_tag_pre : String := ""
  instance_jsonpath : String := ""

/-- A `DefaultGenerator` instance: immutable configuration plus the
mutable call-scoped fields. -/
structure GenState where
  cfg : Config
  call : CallCtx := {}

/-- The schema currently bound on the instance. -/
def GenState.schema (g : GenState) : Schema := g.call.schema

/-- A default-constructed generator (`DefaultGenerator()` with no
arguments), before any call. -/
def defaultGen : GenState := { cfg := {} }

/-- A default-configured generator whose call-scoped fields have been
bound to schema `s` with tag prefix `t`, schema JSONPath `x` and instance
JSONPath `i` (as `generate_schema` binds them). -/
def mkGen (s : Schema) : GenState :=
  { cfg := {},
    call := { schema := s, schema_jsonpath := "x", schema_tag_pre := "t", instance_jsonpath := "i" } }

/-- Companion title key for a keyword (`_get_title_key`). -/
def _get_title_key (g : GenState) (key : String) : String :=
  g.cfg.kw_title_pre ++ key ++ g.cfg.kw_title_suf

/-- Companion description key for a keyword (`_get_description_key`). -/
def _get_description_key (g : GenState) (key : String) : String :=
  g.cfg.kw_desc_pre ++ key ++ g.cfg.kw_desc_suf

/-- CSS class-name builder (`_make_class_name`). -/
def _make_class_name (g : GenState) (parts : List String) : String :=
  to_slug (g.cfg.class_pre ++ String.intercalate "-" parts)

/-- Anchor/tag builder (`_make_tag`). -/
def _make_tag (g : GenState) (parts : List String) : String :=
  to_slug (g.call.schema_tag_pre ++ "-" ++ g.call.schema_jsonpath ++ "-" ++ String.intercalate "-" parts)

/-- Badge kwargs construction and config merging (`_make_badge_kwargs`):
`kwargs | (config or empty) | self._badge_default.get(key, empty)`. -/
def _make_badge_kwargs (g : GenState) (key : String) (message : String) (label : String)
    (link : Option String) (title : Option JVal) (config : Option StyleCfg) : Badge :=
  let lbl := if label == "" then g.cfg.key_title_gen key else label
  let base : Badge :=
    { label := lbl
      message := message
      alt := if label == "" then message else label ++ ": " ++ message
      link := link
      title := title
      color := none }
  let merged := applyStyle base (config.getD {})
  applyStyle merged ((g.cfg.badge_default.lookup key).getD {})

/-- The `message` argument of `_make_keyword_badge_kwargs`: `None`, a
literal string, or the callable `lambda value: str(len(value))` passed by
the required/dependentRequired/prefixItems rules. -/
inductive MsgParam where
  | nonv : MsgParam
  | strv (s : String) : MsgParam
  | lenStrFn : MsgParam

/-- Python truthiness of the `message` argument. -/
def MsgParam.isTruthy : MsgParam → Bool
  | .nonv => false
  | .strv s => !(s == "")
  | .lenStrFn => true

/-- The `message_complex` argument: the default `lambda value: len(value)`,
the `lambda value: "Defined"` of the unevaluated-items/properties rules,
or a literal string. -/
inductive MsgCParam where
  | lenFn : MsgCParam
  | definedFn : MsgCParam
  | strv (s : String) : MsgCParam

/-- The `title` argument: `None`, a literal string, or a keyword-specific
sentence-template callable. -/
inductive TitleParam where
  | nonv : TitleParam
  | strv (s : String) : TitleParam
  | fn (f : JVal → Except PyErr String) : TitleParam

/-- The `link` argument: `None`, a literal string, or the
`lambda value: tag if isinstance(value, dict) else None` of the
unevaluated-items/properties rules. -/
inductive LinkParam where
  | nonv : LinkParam
  | strv (s : String) : LinkParam
  | fnTagIfDict (tag : String) : LinkParam

/-- The intermediate value held by the local `message` variable after the
`if not message:` block: a string, an int (from the default
`message_complex`), or still the original callable. -/
inductive MsgVal where
  | strv (s : String) : MsgVal
  | intv (n : Nat) : MsgVal
  | lenStrFn : MsgVal

/-- Coerce a truthy `message` argument to the intermediate value. -/
def MsgParam.toVal : MsgParam → MsgVal
  | .nonv => .strv ""
  | .strv s => .strv s
  | .lenStrFn => .lenStrFn

/-- The `message if isinstance(message, str) else message(title)` step of
`_make_keyword_badge_kwargs`.  When `message` is still the callable
`lambda value: str(len(value))`, the source applies it to the `title`
argument (not to the keyword's value), so `len` is taken of a function or
of `None` and raises TypeError; an int `message` is not callable either. -/
def resolveMsg (m : MsgVal) (title : TitleParam) : Except PyErr String :=
  match m with
  | .strv s => .ok s
  | .intv _ => .error (.typeError "int object is not callable")
  | .lenStrFn =>
      match title with
      | .strv s => .ok (toString s.length)
      | .nonv => .error (.typeError "object of type NoneType has no len")
      | .fn _ => .error (.typeError "object of type function has no len")

/-- The fallback tooltip: `title if isinstance(title, str) or title is None
else title(value)`, evaluated eagerly as the default argument of
`self._schema.get`. -/
def resolveTitleFallback (title : TitleParam) (value : JVal) : Except PyErr (Option JVal) :=
  match title with
  | .nonv => .ok none
  | .strv s => .ok (some (.str s))
  | .fn f => do
      let s ← f value
      return some (.str s)

/-- The `link if isinstance(link, str) or link is None else link(value)`
step. -/
def resolveLink (link : LinkParam) (value : JVal) : Option String :=
  match link with
  | .nonv => none
  | .strv s => some s
  | .fnTagIfDict tag => match value with | .obj _ => some tag | _ => none

/-- Embedding of `_make_keyword_badge_kwargs`: absent keyword yields no
badge; otherwise the message, permissive/restrictive config, tooltip
(with companion title-key override) and link are computed exactly as in
the source, including the `message(title)` slip. -/
def _make_keyword_badge_kwargs (g : GenState) (key : String) (message : MsgParam)
    (valueArg : Option JVal) (tip : Bool) (mc : MsgCParam)
    (title : TitleParam) (link : LinkParam) : Except PyErr (Option Badge) :=
  match g.schema.lookup key with
  | none => .ok none
  | some schemaVal => do
    let value := valueArg.getD schemaVal
    let step ←
      if message.isTruthy then
        pure (MsgParam.toVal message, (none : Option StyleCfg))
      else
        match value with
        | .bool b =>
            pure (MsgVal.strv (pyBoolLower b),
                  some (if b == tip then g.cfg.badge_permissive else g.cfg.badge_restrictive))
        | .arr xs => do
            let s ← pyJoinStrs " | " xs
            pure (MsgVal.strv s, none)
        | .num n => pure (MsgVal.strv (toString n), none)
        | .str s => pure (MsgVal.strv s, none)
        | _ =>
            match mc with
            | .strv s => pure (MsgVal.strv s, none)
            | .definedFn => pure (MsgVal.strv "Defined", none)
            | .lenFn => do
                let n ← pyLen value
                pure (MsgVal.intv n, none)
    let msg ← resolveMsg step.1 title
    let fallback ← resolveTitleFallback title value
    let titleVal :=
      match g.schema.lookup (_get_title_key g key) with
      | some t => some t
      | none => fallback
    return some (_make_badge_kwargs g key msg "" (resolveLink link value) titleVal step.2)

/-- Badge rule for `deprecated`. -/
def _badge_deprecated (g : GenState) : Except PyErr (Option Badge) :=
  _make_keyword_badge_kwargs g "deprecated" .nonv none false .lenFn
    (.fn fun v => .ok ("This value is " ++ (if truthy v then "" else "not ") ++ "deprecated."))
    .nonv

/-- Badge rule for `readOnly`. -/
def _badge_read_only (g : GenState) : Except PyErr (Option Badge) :=
  _make_keyword_badge_kwargs g "readOnly" .nonv none false .lenFn
    (.fn fun v => .ok ("This value is " ++ (if truthy v then "" else "not ") ++ "read-only."))
    .nonv

/-- Badge rule for `writeOnly`. -/
def _badge_write_only (g : GenState) : Except PyErr (Option Badge) :=
  _make_keyword_badge_kwargs g "writeOnly" .nonv none false .lenFn
    (.fn fun v => .ok ("This value is " ++ (if truthy v then "" else "not ") ++ "write-only."))
    .nonv

/-- Badge rule for `type`. -/
def _badge_type (g : GenState) : Except PyErr (Option Badge) :=
  _make_keyword_badge_kwargs g "type" .nonv none false .lenFn
    (.fn fun v =>
      match v with
      | .arr xs => do
          let s ← pyJoinStrs ", " xs
          return "This value must have one of the following data types: " ++ s ++ "."
      | other => .ok ("This value must be of type " ++ pyStr other ++ "."))
    .nonv

/-- Badge rule for `format`. -/
def _badge_format (g : GenState) : Except PyErr (Option Badge) :=
  _make_keyword_badge_kwargs g "format" .nonv none false .lenFn
    (.fn fun v => .ok ("This value must be a string with " ++ sq ++ pyStr v ++ sq ++ " format."))
    .nonv

/-- Badge rule for `contentMediaType`. -/
def _badge_content_media_type (g : GenState) : Except PyErr (Option Badge) :=
  _make_keyword_badge_kwargs g "contentMediaType" .nonv none false .lenFn
    (.fn fun v => .ok ("This value must be a string with " ++ sq ++ pyStr v ++ sq ++ " MIME type."))
    .nonv

/-- Badge rule for `contentEncoding`. -/
def _badge_content_encoding (g : GenState) : Except PyErr (Option Badge) :=
  _make_keyword_badge_kwargs g "contentEncoding" .nonv none false .lenFn
    (.fn fun v => .ok ("This value must be a string with " ++ sq ++ pyStr v ++ sq ++ " encoding."))
    .nonv

/-- Badge rule for `minLength`. -/
def _badge_min_length (g : GenState) : Except PyErr (Option Badge) :=
  _make_keyword_badge_kwargs g "minLength" .nonv none false .lenFn
    (.fn fun v => .ok ("This value must be a string with a minimum length of " ++ pyStr v ++ "."))
    .nonv

/-- Badge rule for `maxLength`. -/
def _badge_max_length (g : GenState) : Except PyErr (Option Badge) :=
  _make_keyword_badge_kwargs g "maxLength" .nonv none false .lenFn
    (.fn fun v => .ok ("This value must be a string with a maximum length of " ++ pyStr v ++ "."))
    .nonv

/-- Badge rule for `minimum`. -/
def _badge_minimum (g : GenState) : Except PyErr (Option Badge) :=
  _make_keyword_badge_kwargs g "minimum" .nonv none false .lenFn
    (.fn fun v => .ok ("This value must be greater than or equal to " ++ pyStr v ++ "."))
    .nonv

/-- Badge rule for `exclusiveMinimum`. -/
def _badge_exclusive_minimum (g : GenState) : Except PyErr (Option Badge) :=
  _make_keyword_badge_kwargs g "exclusiveMinimum" .nonv none false .lenFn
    (.fn fun v => .ok ("This value must be greater than " ++ pyStr v ++ "."))
    .nonv

/-- Badge rule for `maximum`.  The source passes `key=_meta.Key.MAX_LENGTH`
(the `maxLength` keyword) instead of `maximum`, while keeping the
maximum-specific sentence template. -/
def _badge_maximum (g : GenState) : Except PyErr (Option Badge) :=
  _make_keyword_badge_kwargs g "maxLength" .nonv none false .lenFn
    (.fn fun v => .ok ("This value must be smaller than or equal to " ++ pyStr v ++ "."))
    .nonv

/-- Badge rule for `exclusiveMaximum`. -/
def _badge_exclusive_maximum (g : GenState) : Except PyErr (Option Badge) :=
  _make_keyword_badge_kwargs g "exclusiveMaximum" .nonv none false .lenFn
    (.fn fun v => .ok ("This value must be smaller than " ++ pyStr v ++ "."))
    .nonv

/-- Badge rule for `multipleOf`. -/
def _badge_multiple_of (g : GenState) : Except PyErr (Option Badge) :=
  _make_keyword_badge_kwargs g "multipleOf" .nonv none false .lenFn
    (.fn fun v => .ok ("This value must be a multiple of " ++ pyStr v ++ "."))
    .nonv

/-- Badge rule for `minItems`. -/
def _badge_min_items (g : GenState) : Except PyErr (Option Badge) :=
  _make_keyword_badge_kwargs g "minItems" .nonv none false .lenFn
    (.fn fun v => .ok ("This array must contain " ++ pyStr v ++ " or more elements."))
    .nonv

/-- Badge rule for `maxItems`. -/
def _badge_max_items (g : GenState) : Except PyErr (Option Badge) :=
  _make_keyword_badge_kwargs g "maxItems" .nonv none false .lenFn
    (.fn fun v => .ok ("This array must contain " ++ pyStr v ++ " or less elements."))
    .nonv

/-- Badge rule for `minContains`. -/
def _badge_min_contains (g : GenState) : Except PyErr (Option Badge) :=
  _make_keyword_badge_kwargs g "minContains" .nonv none false .lenFn
    (.fn fun v => .ok ("This array must contain " ++ pyStr v ++
      " or more elements conforming to the `contains` schema."))
    (.strv ("#" ++ _make_tag g ["minContains"]))

/-- Badge rule for `maxContains`. -/
def _badge_max_contains (g : GenState) : Except PyErr (Option Badge) :=
  _make_keyword_badge_kwargs g "maxContains" .nonv none false .lenFn
    (.fn fun v => .ok ("This array must contain " ++ pyStr v ++
      " or less elements conforming to the `contains` schema."))
    (.strv ("#" ++ _make_tag g ["maxContains"]))

/-- Badge rule for `uniqueItems`. -/
def _badge_unique_items (g : GenState) : Except PyErr (Option Badge) :=
  _make_keyword_badge_kwargs g "uniqueItems" .nonv none false .lenFn
    (.fn fun v => .ok (if truthy v then "All array elements must be unique."
      else "Array elements do not need to be unique."))
    .nonv

/-- Badge rule for `unevaluatedItems` (true is the permissive polarity). -/
def _badge_unevaluated_items (g : GenState) : Except PyErr (Option Badge) :=
  _make_keyword_badge_kwargs g "unevaluatedItems" .nonv none true .definedFn
    (.fn fun v =>
      match v with
      | .bool b => .ok ("Array elements other than those defined in `items`, `prefixItems`, or `contains` are "
          ++ (if b then "" else "not ") ++ "allowed.")
      | _ => .ok "Array elements other than those defined in `items`, `prefixItems`, or `contains` must conform to a separate schema.")
    (.fnTagIfDict ("#" ++ _make_tag g ["unevaluatedItems"]))

/-- Badge rule for `minProperties`. -/
def _badge_min_properties (g : GenState) : Except PyErr (Option Badge) :=
  _make_keyword_badge_kwargs g "minProperties" .nonv none false .lenFn
    (.fn fun v => .ok ("This object must contain " ++ pyStr v ++ " or more properties."))
    .nonv

/-- Badge rule for `maxProperties`. -/
def _badge_max_properties (g : GenState) : Except PyErr (Option Badge) :=
  _make_keyword_badge_kwargs g "maxProperties" .nonv none false .lenFn
    (.fn fun v => .ok ("This object must contain " ++ pyStr v ++ " or less properties."))
    .nonv

/-- Badge rule for `unevaluatedProperties` (true is the permissive
polarity). -/
def _badge_unevaluated_properties (g : GenState) : Except PyErr (Option Badge) :=
  _make_keyword_badge_kwargs g "unevaluatedProperties" .nonv none true .definedFn
    (.fn fun v =>
      match v with
      | .bool b => .ok ("Unevaluated object properties are " ++ (if b then "" else "not ") ++ "allowed.")
      | _ => .ok "Unevaluated object properties must conform to a separate schema.")
    (.fnTagIfDict ("#" ++ _make_tag g ["unevaluatedProperties"]))

/-- Badge rule for `default` (the method; note that through `getattr` it
is shadowed by the instance attribute `self._badge_default`, see
`callBadgeAttr`). -/
def _badge_default_method (g : GenState) : Except PyErr (Option Badge) :=
  _make_keyword_badge_kwargs g "default" .nonv (some (.bool true)) true .lenFn
    (.strv "This value has a default.")
    (.strv ("#" ++ _make_tag g ["default"]))

/-- Badge rule for `required`: passes `message=lambda value: str(len(value))`. -/
def _badge_required (g : GenState) : Except PyErr (Option Badge) :=
  _make_keyword_badge_kwargs g "required" .lenStrFn none false .lenFn
    (.fn fun v => .ok ("This object has " ++ pyStr v ++ " required properties."))
    (.strv ("#" ++ _make_tag g ["required"]))

/-- Badge rule for `dependentRequired`. -/
def _badge_dependent_required (g : GenState) : Except PyErr (Option Badge) :=
  _make_keyword_badge_kwargs g "dependentRequired" .lenStrFn none false .lenFn
    (.fn fun v =>
      match v with
      | .obj kvs => do
          let total ← kvs.foldlM (fun acc kv => do
            let n ← pyLen kv.2
            return acc + n) 0
          return "This object has " ++ toString total ++ " required properties depending on "
            ++ toString kvs.length ++ " other properties."
      | _ => .error (.attributeError "values"))
    (.strv ("#" ++ _make_tag g ["dependentRequired"]))

/-- Badge rule for `const`. -/
def _badge_const (g : GenState) : Except PyErr (Option Badge) :=
  _make_keyword_badge_kwargs g "const" .nonv (some (.bool true)) false .lenFn
    (.strv "This value is a constant.")
    (.strv ("#" ++ _make_tag g ["const"]))

/-- Badge rule for `pattern`. -/
def _badge_pattern (g : GenState) : Except PyErr (Option Badge) :=
  _make_keyword_badge_kwargs g "pattern" .nonv (some (.bool true)) false .lenFn
    (.strv "This string must match a RegEx pattern.")
    (.strv ("#" ++ _make_tag g ["pattern"]))

/-- Badge rule for `enum`. -/
def _badge_enum (g : GenState) : Except PyErr (Option Badge) :=
  _make_keyword_badge_kwargs g "enum" .nonv (some (.bool true)) false .lenFn
    (.strv "This value must be equal to one of the enumerated values.")
    (.strv ("#" ++ _make_tag g ["enum"]))

/-- Badge rule for `contentSchema`. -/
def _badge_content_schema (g : GenState) : Except PyErr (Option Badge) :=
  _make_keyword_badge_kwargs g "contentSchema" .nonv (some (.bool true)) false .lenFn
    (.strv "This media content has a defined schema.")
    (.strv ("#" ++ _make_tag g ["contentSchema"]))

/-- Badge rule for `prefixItems`. -/
def _badge_prefix_items (g : GenState) : Except PyErr (Option Badge) :=
  _make_keyword_badge_kwargs g "prefixItems" .lenStrFn none false .lenFn
    (.fn fun v => .ok ("The first " ++ pyStr v ++ " elements of this array are individually defined."))
    (.strv ("#" ++ _make_tag g ["prefixItems"]))

/-- Lookup in the registry by the `$ref` value. -/
def regLookup (reg : Registry) (ridv : JVal) : Option Schema :=
  match ridv with
  | .str s => reg.lookup s
  | _ => none

/-- Badge rule for `$ref` (`_badge_ref`): a falsy `$ref` yields no badge;
a truthy one without a registry raises ValueError; otherwise the
referenced schema is resolved and a cross-document badge is produced. -/
def _badge_ref (g : GenState) : Except PyErr (Option Badge) :=
  let ref_id := g.schema.lookup "$ref"
  if truthyOpt ref_id then
    match g.cfg.registry with
    | none => .error (.valueError "Schema has ref but no registry given.")
    | some reg =>
        let ridv := ref_id.getD .null
        match regLookup reg ridv with
        | none => .error .keyError
        | some ref_schema => do
            let ref_key ← g.cfg.ref_tag_gen ref_schema
            let nm ← g.cfg.ref_name_gen ref_schema
            return some (_make_badge_kwargs g "$ref" (pyStr nm) ""
              (some ("#" ++ g.cfg.ref_tag_pre ++ "-" ++ to_slug (pyStr ref_key)))
              (some (.str ("This schema references another schema with ID " ++ sq ++ pyStr ridv ++ sq ++ ".")))
              none)
  else .ok none

/-- The fixed, ordered keyword list iterated by `_generate_badges`. -/
def badgeLoopKeys : List String :=
  ["deprecated", "readOnly", "writeOnly", "type",
   "format", "contentMediaType", "contentEncoding", "minLength", "maxLength",
   "minimum", "exclusiveMinimum", "maximum", "exclusiveMaximum", "multipleOf",
   "minItems", "maxItems", "minContains", "maxContains", "uniqueItems", "unevaluatedItems",
   "minProperties", "maxProperties", "unevaluatedProperties",
   "default", "required", "dependentRequired", "const", "pattern", "enum",
   "contentSchema",
   "prefixItems", "items", "contains",
   "properties", "patternProperties", "additionalProperties", "propertyNames", "dependentSchemas",
   "allOf", "oneOf", "anyOf", "not", "if",
   "$ref"]

/-- The attributes of a `DefaultGenerator` instance whose names start with
`_badge_`, as seen by `hasattr`: the badge-rule methods of the class plus
the instance attributes `_badge_permissive`, `_badge_restrictive` and
`_badge_default` set by `__init__` (instance attributes shadow same-named
methods). -/
def badgeAttrNames : List String :=
  ["_badge_deprecated", "_badge_read_only", "_badge_write_only", "_badge_type",
   "_badge_format", "_badge_content_media_type", "_badge_content_encoding",
   "_badge_min_length", "_badge_max_length", "_badge_minimum", "_badge_exclusive_minimum",
   "_badge_maximum", "_badge_exclusive_maximum", "_badge_multiple_of",
   "_badge_min_items", "_badge_max_items", "_badge_min_contains", "_badge_max_contains",
   "_badge_unique_items", "_badge_unevaluated_items",
   "_badge_min_properties", "_badge_max_properties", "_badge_unevaluated_properties",
   "_badge_default", "_badge_required", "_badge_dependent_required", "_badge_const",
   "_badge_pattern", "_badge_enum", "_badge_content_schema", "_badge_prefix_items",
   "_badge_ref", "_badge_permissive", "_badge_restrictive"]

/-- `getattr(self, method_name)()` for a `_badge_*` attribute name.
`_badge_default`, `_badge_permissive` and `_badge_restrictive` resolve to
the configuration dicts stored by `__init__` (instance attributes shadow
the `_badge_default` method), so calling them raises TypeError; any other
unknown name would raise AttributeError. -/
def callBadgeAttr (g : GenState) (m : String) : Except PyErr (Option Badge) :=
  match m with
  | "_badge_deprecated" => _badge_deprecated g
  | "_badge_read_only" => _badge_read_only g
  | "_badge_write_only" => _badge_write_only g
  | "_badge_type" => _badge_type g
  | "_badge_format" => _badge_format g
  | "_badge_content_media_type" => _badge_content_media_type g
  | "_badge_content_encoding" => _badge_content_encoding g
  | "_badge_min_length" => _badge_min_length g
  | "_badge_max_length" => _badge_max_length g
  | "_badge_minimum" => _badge_minimum g
  | "_badge_exclusive_minimum" => _badge_exclusive_minimum g
  | "_badge_maximum" => _badge_maximum g
  | "_badge_exclusive_maximum" => _badge_exclusive_maximum g
  | "_badge_multiple_of" => _badge_multiple_of g
  | "_badge_min_items" => _badge_min_items g
  | "_badge_max_items" => _badge_max_items g
  | "_badge_min_contains" => _badge_min_contains g
  | "_badge_max_contains" => _badge_max_contains g
  | "_badge_unique_items" => _badge_unique_items g
  | "_badge_unevaluated_items" => _badge_unevaluated_items g
  | "_badge_min_properties" => _badge_min_properties g
  | "_badge_max_properties" => _badge_max_properties g
  | "_badge_unevaluated_properties" => _badge_unevaluated_properties g
  | "_badge_default" => .error (.typeError "dict object is not callable")
  | "_badge_permissive" => .error (.typeError "dict object is not callable")
  | "_badge_restrictive" => .error (.typeError "dict object is not callable")
  | "_badge_required" => _badge_required g
  | "_badge_dependent_required" => _badge_dependent_required g
  | "_badge_const" => _badge_const g
  | "_badge_pattern" => _badge_pattern g
  | "_badge_enum" => _badge_enum g
  | "_badge_content_schema" => _badge_content_schema g
  | "_badge_prefix_items" => _badge_prefix_items g
  | "_badge_ref" => _badge_ref g
  | other => .error (.attributeError other)

/-- The block of header badges that `_make_badges` would return. -/
structure BadgesBlock where
  items : List Badge
  classes : List String

/-- Embedding of `_make_badges`: after assembling the external badges
element it reads `self._badges_inline_classes` or
`self._badges_header_classes`, neither of which is ever assigned by
`__init__` (which only sets `_badges_inline_default` and
`_badges_header_default`), so the access raises AttributeError. -/
def _make_badges (g : GenState) (items : List Badge) (inline : Bool) : Except PyErr BadgesBlock :=
  let _ := g
  let _ := items
  .error (.attributeError (if inline then "_badges_inline_classes" else "_badges_header_classes"))

/-- Embedding of `_generate_badges`: the JSONPath badge first, then for
each keyword of the fixed list whose derived `_badge_*` attribute exists,
the rule is invoked (regardless of the keyword's presence; each rule
checks presence itself) and a truthy result is appended. -/
def _generate_badges (g : GenState) (instance_jsonpath : String) : Except PyErr BadgesBlock := do
  let first := _make_badge_kwargs g "JSONPath" instance_jsonpath "JSONPath" none none none
  let items ← badgeLoopKeys.foldlM
    (fun acc key => do
      let m := "_badge_" ++ camel_to_snake key
      if m ∈ badgeAttrNames then
        match ← callBadgeAttr g m with
        | some b => pure (acc ++ [b])
        | none => pure acc
      else
        pure acc)
    [first]
  _make_badges g items false

/-- One element of an array-valued tab's ordered list: a bare code block,
or a description paired with the code block. -/
inductive ArrItem where
  | bare (code : String) : ArrItem
  | described (descr : JVal) (code : String) : ArrItem

/-- One entry of the combined required/dependentRequired list: a markdown
string for a required property, or a dependency block with its intro line
and dependent entries. -/
inductive ReqEntry where
  | plain (md : String) : ReqEntry
  | depGroup (intro : String) (items : List String) : ReqEntry
deriving DecidableEq

/-- The content block of a tab item. -/
inductive TabContent where
  | simple (intro : Option JVal) (descr : Option JVal) (valueCode : Option String) : TabContent
  | array (intro : Option JVal) (items : Option (List ArrItem)) : TabContent
  | reqList (entries : List ReqEntry) : TabContent

/-- A tab item as built by `_make_tab_item`. -/
structure TabItem where
  key : String
  title : String
  name : String
  classes_container : List String
  classes_content : List String
  classes_label : List String
  content : TabContent

/-- The tab set returned by `_generate_tabs` (Python appends the raw
`None` returns of tab rules into the list, hence `Option`). -/
structure TabSet where
  items : List (Option TabItem)
  classes : List String

/-- `self._value_code_gen(value).strip()`: with the source's default
configuration the lambda returns the `to_yaml_string` function object, so
`.strip()` raises AttributeError. -/
def applyValueCodeGen (g : GenState) (v : JVal) : Except PyErr String :=
  match g.cfg.value_code_gen with
  | .funcObject => .error (.attributeError "strip")
  | .fn f => .ok (f v).trim

/-- Embedding of `_make_tab_item`. -/
def _make_tab_item (g : GenState) (key : String) (content : TabContent) (title : Option String) : TabItem :=
  { key := key
    title := match title with
      | some t => if t == "" then g.cfg.key_title_gen key else t
      | none => g.cfg.key_title_gen key
    name := _make_tag g [key]
    classes_container := [_make_class_name g ["tab-item-container"]]
    classes_content := [_make_class_name g ["tab-item-content"]]
    classes_label := [_make_class_name g ["tab-item-label"]]
    content := content }

/-- Embedding of `_make_tab_item_simple`: omitted when value, companion
title and companion description are all falsy; a truthy value is rendered
through the configured serializer. -/
def _make_tab_item_simple (g : GenState) (key : String) (title : Option String) :
    Except PyErr (Option TabItem) := do
  let value := g.schema.lookup key
  let intro := g.schema.lookup (_get_title_key g key)
  let descr := g.schema.lookup (_get_description_key g key)
  if !(truthyOpt value || truthyOpt intro || truthyOpt descr) then
    return none
  else do
    let introPart := if truthyOpt intro then intro else none
    let descPart := if truthyOpt descr then descr else none
    let valuePart ←
      if truthyOpt value then do
        let code ← applyValueCodeGen g (value.getD .null)
        pure (some code)
      else pure none
    return some (_make_tab_item g key (.simple introPart descPart valuePart) title)

/-- Python `descriptions[idx]` on the companion-description value. -/
def pyIndex (v : JVal) (i : Nat) : Except PyErr JVal :=
  match v with
  | .arr xs => match xs.get? i with
    | some x => .ok x
    | none => .error (.typeError "list index out of range")
  | .str s => match s.data.get? i with
    | some c => .ok (.str c.toString)
    | none => .error (.typeError "string index out of range")
  | _ => .error (.typeError "object is not subscriptable")

/-- Embedding of `_make_tab_item_array`: element i is paired with
companion description i when i is below the description count. -/
def _make_tab_item_array (g : GenState) (key : String) (title : Option String) :
    Except PyErr (Option TabItem) := do
  let values := g.schema.lookup key
  let intro := g.schema.lookup (_get_title_key g key)
  if !(truthyOpt intro || truthyOpt values) then
    return none
  else do
    let introPart := if truthyOpt intro then intro else none
    let itemsPart ←
      if truthyOpt values then do
        let descriptions := (g.schema.lookup (_get_description_key g key)).getD (.arr [])
        let descCount ← pyLen descriptions
        let elems ← pyIter (values.getD .null)
        let items ← elems.enum.mapM fun iv => do
          let code ← applyValueCodeGen g iv.2
          if iv.1 < descCount then do
            let d ← pyIndex descriptions iv.1
            pure (ArrItem.described d code)
          else
            pure (ArrItem.bare code)
        pure (some items)
      else pure none
    return some (_make_tab_item g key (.array introPart itemsPart) title)

/-- The markdown for one required-property name: cross-linked to its
`properties` anchor when schema-defined, inline code otherwise. -/
def reqCode (g : GenState) (properties : JVal) (r : String) : String :=
  let c := "`" ++ r ++ "`"
  if hasKeyJ properties r then
    "[" ++ c ++ "](#" ++ _make_tag g ["properties", r] ++ ")"
  else c

/-- The `req_list` built inside `_tab_required` (source lines 563-588):
sorted required names, then for each dependency key (sorted) a block with
its dependents.  When a dependent is schema-defined, the source links the
dependency's markdown (`dependency_code`) instead of the dependent's. -/
def tabRequiredEntries (g : GenState) : Except PyErr (List ReqEntry) := do
  let required := (g.schema.lookup "required").getD (.arr [])
  let properties := (g.schema.lookup "properties").getD (.obj [])
  let reqNames ← pySortedStrs required
  let base := reqNames.map fun r => ReqEntry.plain (reqCode g properties r)
  let dep := (g.schema.lookup "dependentRequired").getD (.obj [])
  let depPairs ←
    match dep with
    | .obj kvs => Except.ok kvs
    | _ => Except.error (.attributeError "items")
  let depEntries ← (sortPairs depPairs).mapM fun kv => do
    let depCode := reqCode g properties kv.1
    let delems ← pyIter kv.2
    let deps_list := delems.map fun d =>
      let dc := "`" ++ pyStr d ++ "`"
      match d with
      | .str ds =>
          if hasKeyJ properties ds then
            "[" ++ depCode ++ "](#" ++ _make_tag g ["properties", ds] ++ ")"
          else dc
      | _ => dc
    pure (ReqEntry.depGroup ("If " ++ depCode ++ " is present:") deps_list)
  return base ++ depEntries

/-- Embedding of `_tab_required`: returns `None` when both keywords are
falsy; otherwise it builds the combined list and the tab item — and then
falls through to the bare `return` of line 594, discarding the tab item
and returning `None` anyway. -/
def _tab_required (g : GenState) : Except PyErr (Option TabItem) := do
  let required := (g.schema.lookup "required").getD (.arr [])
  let dep := (g.schema.lookup "dependentRequired").getD (.obj [])
  if !(truthy required || truthy dep) then
    return none
  else do
    let entries ← tabRequiredEntries g
    let _discarded := _make_tab_item g "required" (.reqList entries) (some "Required Properties")
    return none

/-- Embedding of `_tab_jsonschema`: its body reads the names `schema`,
`schema_id`, `schema_jsonpath` and `add_tab_item`, none of which is
defined in any enclosing scope, so the first statement executed
(`_schemator.sanitize(schema)`) raises NameError for `schema`. -/
def _tab_jsonschema (g : GenState) : Except PyErr TabItem :=
  let _ := g
  .error (.nameError "schema")

/-- Tab rule for `const` — the only tab method whose name carries no
leading underscore (`tab_const`). -/
def tab_const (g : GenState) : Except PyErr (Option TabItem) :=
  _make_tab_item_simple g "const" none

/-- Tab rule for `pattern` (named `_tab_pattern` in the source). -/
def _tab_pattern (g : GenState) : Except PyErr (Option TabItem) :=
  _make_tab_item_simple g "pattern" none

/-- Tab rule for `default` (named `_tab_default` in the source). -/
def _tab_default (g : GenState) : Except PyErr (Option TabItem) :=
  _make_tab_item_simple g "default" none

/-- Tab rule for `enum` (named `_tab_enum` in the source). -/
def _tab_enum (g : GenState) : Except PyErr (Option TabItem) :=
  _make_tab_item_array g "enum" none

/-- Tab rule for `examples` (named `_tab_examples` in the source). -/
def _tab_examples (g : GenState) : Except PyErr (Option TabItem) :=
  _make_tab_item_array g "examples" none

/-- The keyword list iterated by `_generate_tabs`. -/
def tabLoopKeys : List String :=
  ["default", "required", "dependentRequired", "const", "pattern", "enum", "examples"]

/-- `getattr(self, f"tab_{snake}")()` in `_generate_tabs`: of all tab
methods only `tab_const` lacks the leading underscore, so every other
derived name (`tab_default`, `tab_required`, `tab_dependent_required`,
`tab_pattern`, `tab_enum`, `tab_examples`) raises AttributeError. -/
def callTabAttr (g : GenState) (m : String) : Except PyErr (Option TabItem) :=
  match m with
  | "tab_const" => tab_const g
  | other => .error (.attributeError other)

/-- Embedding of `_generate_tabs`: calls the derived `tab_*` attribute for
each present keyword (collecting `None` results too), then appends the
raw-schema tab. -/
def _generate_tabs (g : GenState) : Except PyErr TabSet := do
  let items ← tabLoopKeys.foldlM
    (fun acc key => do
      if (g.schema.lookup key).isSome then do
        let t ← callTabAttr g ("tab_" ++ camel_to_snake key)
        pure (acc ++ [t])
      else
        pure acc)
    ([] : List (Option TabItem))
  let raw ← _tab_jsonschema g
  return { items := items ++ [some raw], classes := [_make_class_name g ["tab-set"]] }

/-- The paragraph element produced for a truthy `summary` keyword. -/
structure Paragraph where
  text : JVal
  name : String
  classes : List String

/-- The container produced for a truthy `description` keyword. -/
structure DescBlock where
  text : JVal
  htmlClass : String

/-- Embedding of `_generate_summary`: a paragraph when the `summary`
value is truthy, `None` otherwise (including a present-but-empty value). -/
def _generate_summary (g : GenState) : Option Paragraph :=
  let summary := g.schema.lookup "summary"
  if truthyOpt summary then
    some { text := summary.getD .null
           name := _make_tag g ["summary"]
           classes := [_make_class_name g ["summary"]] }
  else none

/-- Embedding of `_generate_description`: a block when the `description`
value is truthy, `None` otherwise. -/
def _generate_description (g : GenState) : Option DescBlock :=
  let description := g.schema.lookup "description"
  if truthyOpt description then
    some { text := description.getD .null
           htmlClass := _make_class_name g ["description"] }
  else none

/-- The document body returned by `generate_schema` (the `seperator` key
reproduces the source's spelling). -/
structure Body where
  badges : BadgesBlock
  seperator : String := "<hr>"
  summary : Option Paragraph := none
  tabs : TabSet
  description : Option DescBlock := none

/-- Embedding of `generate_schema`: first stores the call-scoped context
on the instance, then builds badges, optional summary, tabs and optional
description.  The result pairs the outcome with the post-call instance
state. -/
def generate_schema (g : GenState) (schema : Schema)
    (schema_jsonpath schema_tag_pre instance_jsonpath : String) :
    Except PyErr Body × GenState :=
  let g' : GenState := { g with call :=
    { schema := schema
      schema_jsonpath := schema_jsonpath
      schema_tag_pre := schema_tag_pre
      instance_jsonpath := instance_jsonpath } }
  let result : Except PyErr Body := do
    let badges ← _generate_badges g' instance_jsonpath
    let summary := _generate_summary g'
    let tabs ← _generate_tabs g'
    return { badges := badges, summary := summary, tabs := tabs, description := _generate_description g' }
  (result, g')

/-- The message of the badge produced by a badge rule, when one is. -/
def badgeMessage (r : Except PyErr (Option Badge)) : Option String :=
  match r with
  | .ok (some b) => some b.message
  | _ => none

/-- The label of the badge produced by a badge rule, when one is. -/
def badgeLabel (r : Except PyErr (Option Badge)) : Option String :=
  match r with
  | .ok (some b) => some b.label
  | _ => none

/-- The merged colour of the badge produced by a badge rule, when one is. -/
def badgeColor (r : Except PyErr (Option Badge)) : Option String :=
  match r with
  | .ok (some b) => b.color
  | _ => none

/-- The tooltip text of the badge produced by a badge rule, when one is
and it is a string. -/
def badgeTitleText (r : Except PyErr (Option Badge)) : Option String :=
  match r with
  | .ok (some b) => match b.title with | some (.str s) => some s | _ => none
  | _ => none

/-- C1: the claim says `generate_schema` returns a tab list with one tab
per populated keyword among default, required/dependentRequired, const,
pattern, enum, examples, plus a mandatory trailing raw-schema tab, and
that no such call fails.  The code fails instead: `generate_schema` on a
schema with `default` raises TypeError already in the badge loop (the
instance attribute `_badge_default` shadows the method and is called);
`_generate_tabs` dispatches on names like `tab_default` while the methods
are named `_tab_default` (AttributeError), the lone correctly named
`tab_const` fails in the default value serializer (AttributeError on
`strip`), and the mandatory raw-schema tab builder references the
undefined name `schema` (NameError), so no tab set is ever produced. -/
theorem c1_tabs_code_bug :
    (generate_schema defaultGen [("default", JVal.num 1)] "$" "t" "$").1
      = .error (.typeError "dict object is not callable") ∧
    _generate_tabs (mkGen [("default", JVal.num 1)]) = .error (.attributeError "tab_default") ∧
    _generate_tabs (mkGen [("enum", JVal.arr [JVal.num 1])]) = .error (.attributeError "tab_enum") ∧
    _generate_tabs (mkGen [("const", JVal.num 5)]) = .error (.attributeError "strip") ∧
    _generate_tabs (mkGen [("const", JVal.num 0)]) = .error (.nameError "schema") :=
  ⟨rfl, rfl, rfl, rfl, rfl⟩

/-- C2: the claim says that with `$ref` present and no registry,
`generate_schema` fails with a configuration error.  In the code the
registry check is dead: the badge loop derives the attribute name
`_badge_$ref` from the keyword (`camel_to_snake` leaves `$ref`
unchanged), which does not exist, so `_badge_ref` and its
`ValueError("Schema has ref but no registry given.")` are never reached.
The call still raises — but with the TypeError every schema triggers at
the shadowed `_badge_default` attribute, registry or not.  Calling
`_badge_ref` directly does raise the intended configuration error. -/
theorem c2_ref_code_bug :
    (generate_schema defaultGen [("$ref", JVal.str "urn:x")] "$" "t" "$").1
      = .error (.typeError "dict object is not callable") ∧
    ("_badge_" ++ camel_to_snake "$ref") = "_badge_$ref" ∧
    "_badge_$ref" ∉ badgeAttrNames ∧
    _badge_ref (mkGen [("$ref", JVal.str "urn:x")])
      = .error (.valueError "Schema has ref but no registry given.") :=
  ⟨rfl, rfl, by decide, rfl⟩

/-- C3: the claim says a schema containing `maximum` gets a maximum badge
whose message is the string form of the maximum value, with the
maximum-specific sentence, independent of other keywords such as
`maxLength`.  The rule `_badge_maximum` instead passes the `maxLength`
keyword: with only `maximum` present no badge is produced, and with
`maxLength` also present the badge carries the `maxLength` value and
label under the maximum sentence template (interpolating the `maxLength`
value). -/
theorem c3_maximum_badge_code_bug :
    _badge_maximum (mkGen [("maximum", JVal.num 10)]) = .ok none ∧
    badgeMessage (_badge_maximum (mkGen [("maximum", JVal.num 10), ("maxLength", JVal.num 5)]))
      = some "5" ∧
    badgeLabel (_badge_maximum (mkGen [("maximum", JVal.num 10), ("maxLength", JVal.num 5)]))
      = some "Max Length" ∧
    badgeTitleText (_badge_maximum (mkGen [("maximum", JVal.num 10), ("maxLength", JVal.num 5)]))
      = some "This value must be smaller than or equal to 5." :=
  ⟨rfl, rfl, rfl, rfl⟩

/-- C4: the claim says the required badge message is `str(len(required))`,
the dependentRequired badge message the total dependent count, the
prefixItems badge message `str(len(prefixItems))`, and that producing
them never fails on well-formed input.  In the code
`_make_keyword_badge_kwargs` applies the message callable to the `title`
argument instead of the keyword value (`message(title)`), so
`str(len(...))` is taken of a function and all three rules raise
TypeError on any schema containing their keyword. -/
theorem c4_count_badge_code_bug :
    _badge_required (mkGen [("required", JVal.arr [JVal.str "a"])])
      = .error (.typeError "object of type function has no len") ∧
    _badge_dependent_required (mkGen [("dependentRequired", JVal.obj [("a", JVal.arr [JVal.str "b"])])])
      = .error (.typeError "object of type function has no len") ∧
    _badge_prefix_items (mkGen [("prefixItems", JVal.arr [JVal.obj []])])
      = .error (.typeError "object of type function has no len") :=
  ⟨rfl, rfl, rfl⟩

/-- C5: the claim says a schema with no recognized keyword yields a body
with only the JSONPath badge, only the raw-schema tab, no summary and no
description.  The code never returns a body: the badge loop calls the
shadowed `_badge_default` attribute (TypeError) for every schema,
including the empty one, and the raw-schema tab builder raises NameError.
The summary/description halves of the claim do hold. -/
theorem c5_empty_schema_code_bug :
    (generate_schema defaultGen [] "$" "t" "$").1
      = .error (.typeError "dict object is not callable") ∧
    _generate_summary (mkGen []) = none ∧
    _generate_description (mkGen []) = none ∧
    _generate_tabs (mkGen []) = .error (.nameError "schema") :=
  ⟨rfl, rfl, rfl, rfl⟩

/-- C6 counterexample: the claim says `"deprecated": false` yields the
permissive style.  In the code the per-keyword badge defaults
(`_badge_default["deprecated"] = {"color": "#AF1F10"}`) are merged after
the chosen permissive/restrictive config, so the deprecated badge carries
the restrictive colour `#AF1F10` even for `false` — not the permissive
`#00802B`. -/
theorem c6_counterexample :
    badgeColor (_badge_deprecated (mkGen [("deprecated", JVal.bool false)])) = some "#AF1F10" ∧
    defaultGen.cfg.badge_permissive.color = some "#00802B" ∧
    ("#AF1F10" : String) ≠ "#00802B" :=
  ⟨rfl, rfl, by decide⟩

/-- C6 amended: for boolean `unevaluatedItems`/`unevaluatedProperties`
the polarity is as claimed (true permissive, false restrictive), and in
all cases the message is the lowercase boolean text; for `deprecated`,
however, the per-keyword default colour (equal to the restrictive colour)
overrides the chosen style, so both true and false render with `#AF1F10`. -/
theorem c6_boolean_badge_styles (b : Bool) :
    badgeMessage (_badge_deprecated (mkGen [("deprecated", JVal.bool b)]))
      = some (pyBoolLower b) ∧
    badgeColor (_badge_deprecated (mkGen [("deprecated", JVal.bool b)])) = some "#AF1F10" ∧
    badgeMessage (_badge_unevaluated_items (mkGen [("unevaluatedItems", JVal.bool b)]))
      = some (pyBoolLower b) ∧
    badgeColor (_badge_unevaluated_items (mkGen [("unevaluatedItems", JVal.bool b)]))
      = some (if b then "#00802B" else "#AF1F10") ∧
    badgeMessage (_badge_unevaluated_properties (mkGen [("unevaluatedProperties", JVal.bool b)]))
      = some (pyBoolLower b) ∧
    badgeColor (_badge_unevaluated_properties (mkGen [("unevaluatedProperties", JVal.bool b)]))
      = some (if b then "#00802B" else "#AF1F10") := by
  cases b <;> exact ⟨rfl, rfl, rfl, rfl, rfl, rfl⟩

/-- C7: the claim says the combined required tab lists required names in
lexicographic order (linked when schema-defined) with nested
dependentRequired blocks.  The code builds that list — for
`required=["b","a"]`, `properties={"a":...}` it computes `a` (linked)
before `b` (inline code) — but then `_tab_required` discards the built
tab item and returns `None` (bare `return`), the tab dispatch looks up
the non-existent attribute `tab_required` (AttributeError), and a
schema-defined dependent is rendered with the dependency's markdown
instead of its own (`dependency_code` reused in the dependents loop). -/
theorem c7_required_tab_code_bug :
    _generate_tabs (mkGen [("required", JVal.arr [JVal.str "b", JVal.str "a"]),
        ("properties", JVal.obj [("a", JVal.obj [])])])
      = .error (.attributeError "tab_required") ∧
    _tab_required (mkGen [("required", JVal.arr [JVal.str "b", JVal.str "a"]),
        ("properties", JVal.obj [("a", JVal.obj [])])])
      = .ok none ∧
    tabRequiredEntries (mkGen [("required", JVal.arr [JVal.str "b", JVal.str "a"]),
        ("properties", JVal.obj [("a", JVal.obj [])])])
      = .ok [ReqEntry.plain "[`a`](#t-x-properties-a)", ReqEntry.plain "`b`"] ∧
    tabRequiredEntries (mkGen [("dependentRequired", JVal.obj [("b", JVal.arr [JVal.str "a", JVal.str "c"])]),
        ("properties", JVal.obj [("a", JVal.obj [])])])
      = .ok [ReqEntry.depGroup "If `b` is present:" ["[`b`](#t-x-properties-a)", "`c`"]] :=
  ⟨rfl, rfl, rfl, rfl⟩

/-- C8 counterexample: the claim says the summary/description blocks are
present if and only if the `summary`/`description` keys are present, even
with an empty-string value.  The code tests truthiness, not presence: for
`summary=""` and `description=""` both keys are present and both blocks
are absent. -/
theorem c8_counterexample :
    ((mkGen [("summary", JVal.str ""), ("description", JVal.str "")]).schema.lookup "summary").isSome
      = true ∧
    _generate_summary (mkGen [("summary", JVal.str ""), ("description", JVal.str "")]) = none ∧
    ((mkGen [("summary", JVal.str ""), ("description", JVal.str "")]).schema.lookup "description").isSome
      = true ∧
    _generate_description (mkGen [("summary", JVal.str ""), ("description", JVal.str "")]) = none :=
  ⟨rfl, rfl, rfl, rfl⟩

/-- C8 amended: the summary block is present exactly when the schema's
`summary` value is truthy (present and non-empty), and likewise the
description block for `description`; a present-but-falsy value yields no
block. -/
theorem c8_summary_description_truthiness (g : GenState) :
    (_generate_summary g).isSome = truthyOpt (g.schema.lookup "summary") ∧
    (_generate_description g).isSome = truthyOpt (g.schema.lookup "description") := by
  constructor
  · cases h : truthyOpt (g.schema.lookup "summary") <;> simp [_generate_summary, h]
  · cases h : truthyOpt (g.schema.lookup "description") <;> simp [_generate_description, h]

/-- C9 counterexample: the claim says no mutable state other than the
configuration survives a call on the generator instance.  The code
stashes the call-scoped context on the instance (`self._schema`,
`self._schema_jsonpath`, ...): after a call with schema JSONPath "p" the
instance's `_schema_jsonpath` field — not part of the configuration — has
changed from its initial empty value and persists. -/
theorem c9_counterexample :
    (generate_schema defaultGen [] "p" "t" "i").2.call.schema_jsonpath = "p" ∧
    defaultGen.call.schema_jsonpath = "" ∧
    ("p" : String) ≠ "" :=
  ⟨rfl, rfl, by decide⟩

/-- C9 amended: the outcome of `generate_schema` is a deterministic
function of the call inputs and the construction-time configuration
alone — stale call-scoped instance fields left by earlier calls are
overwritten before use and cannot influence the result — but the
call-scoped fields themselves do survive on the instance after the call
(see the counterexample). -/
theorem c9_output_independent_of_stale_call_state (cfg : Config) (c c' : CallCtx)
    (schema : Schema) (sp tp ip : String) :
    generate_schema { cfg := cfg, call := c } schema sp tp ip
      = generate_schema { cfg := cfg, call := c' } schema sp tp ip := rfl

/-- C10: when the `$ref` key is present but its value is falsy, the ref
badge rule returns no badge and does not raise, regardless of the
configured registry (in particular with none): the truthiness guard
precedes the registry check. -/
theorem c10_falsy_ref_no_badge_no_error (g : GenState) (v : JVal)
    (h1 : g.schema.lookup "$ref" = some v) (h2 : truthy v = false) :
    _badge_ref g = .ok none := by
  unfold _badge_ref
  rw [h1]
  simp [truthyOpt, h2]

/-- C10 witness: a default-constructed generator (no registry) on the
schema with `$ref` mapped to the empty string. -/
theorem c10_witness :
    _badge_ref (mkGen [("$ref", JVal.str "")]) = .ok none :=
  c10_falsy_ref_no_badge_no_error (mkGen [("$ref", JVal.str "")]) (JVal.str "") rfl rfl

end JsonschemaMdit
